import Mathlib

/-!
Shallow embedding of the tradewin-algo decision engine, and proofs checking
the claims of its natural-language specification against the code.

Modelling conventions:
* Python floats are modelled as exact rationals (`ℚ`).  The float value NaN is
  modelled by `none` in `Val := Option ℚ`; arithmetic on `Val` propagates
  `none` and every comparison involving `none` is `false`, matching IEEE-754
  comparison semantics used by Python/pandas.
* `round(x, 2)` is modelled as exact round-half-to-even at two decimals
  (`round2`), the rounding rule Python documents for `round`.
* A pandas row is a finite record of optional columns: the outer `Option`
  on each field is column presence (a missing column raises `KeyError` on
  access), the inner `Val` carries NaN-ability.  Fallible code is embedded
  in `Except String`.
* Timestamps are a calendar day index plus a second-of-day; elapsed time
  between two timestamps is their difference in seconds.  String formatting
  of numbers inside reason messages is abstracted by `toString` on `ℚ`.
-/

namespace Tradewin

/-- A Python float value: `none` models NaN (or a Python `None` stored in a
float column), `some q` a finite float modelled exactly as a rational. -/
abbrev Val := Option ℚ

namespace Val

/-- NaN-propagating addition. -/
def add : Val → Val → Val
  | some a, some b => some (a + b)
  | _, _ => none

/-- NaN-propagating subtraction. -/
def sub : Val → Val → Val
  | some a, some b => some (a - b)
  | _, _ => none

/-- NaN-propagating multiplication. -/
def mul : Val → Val → Val
  | some a, some b => some (a * b)
  | _, _ => none

/-- NaN-propagating absolute value. -/
def abs : Val → Val
  | some a => some |a|
  | none => none

/-- Strict less-than; any comparison with NaN is false (IEEE-754 / Python). -/
def lt : Val → Val → Bool
  | some a, some b => decide (a < b)
  | _, _ => false

/-- Less-or-equal; any comparison with NaN is false (IEEE-754 / Python). -/
def le : Val → Val → Bool
  | some a, some b => decide (a ≤ b)
  | _, _ => false

/-- Python `pd.isna` on a float value. -/
def isna : Val → Bool
  | none => true
  | some _ => false

/-- Rendering of a float inside an f-string; NaN prints as `nan`.  Numeric
formatting is abstracted by `toString` on the exact rational. -/
def repr : Val → String
  | none => "nan"
  | some q => toString q

@[simp] theorem add_some (a b : ℚ) : add (some a) (some b) = some (a + b) := rfl
@[simp] theorem sub_some (a b : ℚ) : sub (some a) (some b) = some (a - b) := rfl
@[simp] theorem mul_some (a b : ℚ) : mul (some a) (some b) = some (a * b) := rfl
@[simp] theorem abs_some (a : ℚ) : abs (some a) = some |a| := rfl
@[simp] theorem lt_some (a b : ℚ) : lt (some a) (some b) = decide (a < b) := rfl
@[simp] theorem le_some (a b : ℚ) : le (some a) (some b) = decide (a ≤ b) := rfl
@[simp] theorem isna_some (a : ℚ) : isna (some a) = false := rfl
@[simp] theorem isna_none : isna none = true := rfl

end Val

/-- Round a rational to the nearest integer, ties to even: the rounding rule
of Python `round`. -/
def roundHalfEven (q : ℚ) : ℤ :=
  let f : ℤ := ⌊q⌋
  let r : ℚ := q - f
  if r < 1/2 then f
  else if 1/2 < r then f + 1
  else if f % 2 = 0 then f else f + 1

/-- Python `round(x, 2)`: round half to even at two decimal places. -/
def round2 (q : ℚ) : ℚ := (roundHalfEven (q * 100) : ℚ) / 100

/-! ### Net P&L (`TradeExecutor._calculate_pnl`, src/tradewin_trade_manager.py)

The executor method reads `entry_price`, `qty`, `trade_type` and
`trade_direction` from the trade state and the exit price from its argument;
it is embedded as a function of those five values. -/

/-- Embeds `TradeExecutor._calculate_pnl` (src/tradewin_trade_manager.py,
lines 122-153). -/
def calculatePnl (entry exitPrice qty : ℚ) (direction tradeType : String) : ℚ :=
  let grossPnl := if direction == "SELL" then (entry - exitPrice) * qty
                  else (exitPrice - entry) * qty
  let turnover := (entry + exitPrice) * qty
  let brokerage := min 20 (3/10000 * turnover) * 2
  let stt := if tradeType == "SELL" then 25/100000 * exitPrice * qty else 0
  let gst := 18/100 * brokerage
  let sebi := 1/1000000 * turnover
  let stamp := if tradeType == "BUY" then 3/100000 * entry * qty else 0
  let totalCharges := brokerage + stt + gst + sebi + stamp
  let netPnl := grossPnl - totalCharges
  round2 netPnl

/-- The net P&L formula as worded by the specification (section 4.5):
gross by direction, brokerage capped per leg and doubled, STT on the sell
side only, GST at 18 percent of brokerage, regulatory fee on turnover,
stamp duty on the buy side only, all subtracted from gross and rounded to
two decimals.  Stated from the words of the spec, for comparison with
`calculatePnl`. -/
def specNetPnl (entry exitPrice qty : ℚ) (direction tradeType : String) : ℚ :=
  let turnover := (entry + exitPrice) * qty
  let gross := if direction = "SELL" then (entry - exitPrice) * qty
               else (exitPrice - entry) * qty
  let brokerage := min 20 (3/10000 * turnover) * 2
  let stt := if tradeType = "SELL" then 25/100000 * exitPrice * qty else 0
  let gst := 18/100 * brokerage
  let regulatoryFee := 1/1000000 * turnover
  let stampDuty := if tradeType = "BUY" then 3/100000 * entry * qty else 0
  round2 (gross - (brokerage + stt + gst + regulatoryFee + stampDuty))

/-! ### Trade state and order placement (src/tradewin_config.py, src/tradewin_trade_manager.py)

`TradeState` is the single mutable trade record.  Fields that the Python
class initialises to `None` but that every claim evaluates only on states
describing an open or opening trade (prices, direction, strategy) are
modelled with their plain carrier types; fields whose `None`-ness the code
itself branches on (`entry_time`, `last_exit_time`, `last_exit_price`,
timestamps) are modelled as `Option`.  Timestamps are seconds (`Int`). -/

structure TradeState where
  stop_loss : ℚ
  trade_direction : String
  last_sl_update_time : Option Int
  last_exit_time : Option Int
  last_exit_price : Option ℚ
  trade_id : Nat
  strategy : String
  open_trade : Bool
  entry_time : Option Int
  target_price : ℚ
  entry_price : ℚ
  position : String
  date : Option Int
  qty : ℚ
  trade_type : String
  checked_post_entry : Bool
  deriving DecidableEq

/-- Embeds `TradeExecutor._adjust_target_price` (src/tradewin_trade_manager.py,
lines 82-88).  `self.atr or 20` is Python truthiness: an ATR of `0.0` falls
back to `20`.  The method first appends the ATR to `self.atr_history`, so the
median index is taken in the appended list, which is never empty. -/
def adjustTargetPrice (entryPrice : ℚ) (atr0 : ℚ) (atrHistory : List ℚ) (action : String) : ℚ :=
  let atr := if atr0 = 0 then 20 else atr0
  let hist := atrHistory ++ [atr]
  let medianAtr := (hist.mergeSort (fun a b => decide (a ≤ b))).getD (hist.length / 2) atr
  let multiplier : ℚ := if atr < medianAtr then 18/10 else 25/10
  if action == "BUY" then entryPrice + multiplier * atr else entryPrice - multiplier * atr

/-- Embeds `TradeExecutor._update_trade_state` (src/tradewin_trade_manager.py,
lines 67-80).  The fresh id and the wall-clock entry time are explicit
arguments; `state.qty` is `config.TRADE_QTY * lots`.  The target is computed
by `_adjust_target_price` after `entry_price` has been set to the rounded
price. -/
def updateTradeState (s : TradeState) (nowTime : Int) (newId : Nat) (tradeQty : ℚ)
    (atr0 : ℚ) (atrHistory : List ℚ) (tradeDate : Option Int)
    (action : String) (price stoploss : ℚ) (strategy : String) (lots : ℚ) : TradeState :=
  let entry := round2 price
  { s with trade_id := newId
           entry_time := some nowTime
           position := action
           entry_price := entry
           stop_loss := round2 stoploss
           strategy := strategy
           open_trade := true
           last_sl_update_time := none
           target_price := adjustTargetPrice entry atr0 atrHistory action
           date := tradeDate
           qty := tradeQty * lots
           trade_type := action }

/-- Embeds `TradeExecutor.place_order` (src/tradewin_trade_manager.py, lines
30-51).  Before checking `open_trade` the method assigns `trade_direction`,
`entry_price`, `stop_loss` and `strategy` on the shared state; when a trade
is already open it then logs and returns, leaving those four assignments in
place.  Database persistence and broker order submission are side effects
outside the state and are not modelled. -/
def placeOrder (s : TradeState) (nowTime : Int) (newId : Nat) (tradeQty : ℚ)
    (atr0 : ℚ) (atrHistory : List ℚ) (tradeDate : Option Int)
    (action : String) (price stoploss : ℚ) (strategy : String) (lots : ℚ) : TradeState :=
  let s1 := { s with trade_direction := action
                     entry_price := price
                     stop_loss := stoploss
                     strategy := strategy }
  if s1.open_trade then s1
  else updateTradeState s1 nowTime newId tradeQty atr0 atrHistory tradeDate
         action price stoploss strategy lots

/-! ### Trailing stop-loss manager (src/tradewin_sl_manager.py)

The logging and persistence calls of `SLManager` are side effects outside
the trade state and are not modelled; the `price` argument of
`_maybe_update_sl` is only logged and is dropped. -/

/-- Embeds `SLManager._age_seconds` (src/tradewin_sl_manager.py, lines 77-82):
zero when `entry_time` is `None` or `trade_date` is not a datetime (`none`). -/
def slAgeSeconds (s : TradeState) (tradeDate : Option Int) : Int :=
  match s.entry_time, tradeDate with
  | some et, some td => td - et
  | _, _ => 0

/-- Embeds `SLManager._maybe_update_sl` (src/tradewin_sl_manager.py, lines
60-75): rounds the candidate, drops changes smaller than `0.01`, refuses a
candidate that does not strictly improve the stop for the position side, and
otherwise installs it and records the update time. -/
def maybeUpdateSl (s : TradeState) (tradeDate : Option Int) (newSl0 : ℚ) : TradeState :=
  let newSl := round2 newSl0
  if |newSl - s.stop_loss| < 1/100 then s
  else if s.position = "BUY" ∧ newSl ≤ s.stop_loss then s
  else if s.position = "SELL" ∧ s.stop_loss ≤ newSl then s
  else { s with stop_loss := newSl, last_sl_update_time := tradeDate }

/-- Embeds `SLManager._handle_buy_sl` (src/tradewin_sl_manager.py, lines
36-46).  The conditional expression selecting `candidate_sl` (falling from
`new_sl` to `fallback_sl` to `None`) followed by `if candidate_sl:` is
rendered as nested conditionals; `if candidate_sl:` is Python truthiness, so
a selected candidate equal to `0.0` behaves like `None` and is dropped. -/
def handleBuySl (s : TradeState) (tradeDate : Option Int) (price atr : ℚ) : TradeState :=
  let move := price - s.entry_price
  let fallbackSl := price - (if slAgeSeconds s tradeDate > 1800 then min 50 atr else atr)
  let newSl := price - atr * (6/10)
  if move ≥ atr then
    if s.stop_loss < newSl then
      (if newSl = 0 then s else maybeUpdateSl s tradeDate newSl)
    else if s.stop_loss < fallbackSl then
      (if fallbackSl = 0 then s else maybeUpdateSl s tradeDate fallbackSl)
    else s
  else s

/-- Embeds `SLManager._handle_sell_sl` (src/tradewin_sl_manager.py, lines
48-58), the mirror of the buy handler. -/
def handleSellSl (s : TradeState) (tradeDate : Option Int) (price atr : ℚ) : TradeState :=
  let move := s.entry_price - price
  let fallbackSl := price + (if slAgeSeconds s tradeDate > 1800 then min 50 atr else atr)
  let newSl := price + atr * (6/10)
  if move ≥ atr then
    if newSl < s.stop_loss then
      (if newSl = 0 then s else maybeUpdateSl s tradeDate newSl)
    else if fallbackSl < s.stop_loss then
      (if fallbackSl = 0 then s else maybeUpdateSl s tradeDate fallbackSl)
    else s
  else s

/-- Embeds `SLManager.check_and_update_sl` (src/tradewin_sl_manager.py, lines
14-34): skip trades younger than two minutes; near the target tighten the
stop aggressively to price minus (plus) 30 for a long (short); otherwise run
the direction-specific trailing rule. -/
def checkAndUpdateSl (s : TradeState) (tradeDate : Option Int) (currentPrice atr : ℚ) : TradeState :=
  let age := slAgeSeconds s tradeDate
  if age < 120 then s
  else
    let nearTarget := |currentPrice - s.target_price| ≤ (1/4) * atr
    if nearTarget then
      let newSl := if s.position = "BUY" then currentPrice - 30 else currentPrice + 30
      maybeUpdateSl s tradeDate newSl
    else if s.position = "BUY" then handleBuySl s tradeDate currentPrice atr
    else if s.position = "SELL" then handleSellSl s tradeDate currentPrice atr
    else s

/-- One monitoring call of the trailing stop manager, as a fold step. -/
def slRun (s : TradeState) : List (Option Int × ℚ × ℚ) → TradeState
  | [] => s
  | (td, p, a) :: rest => slRun (checkAndUpdateSl s td p a) rest

/-- The sequence of stop-loss values seen across a sequence of calls to
`checkAndUpdateSl`: the initial stop followed by the stop after each call. -/
def slTrace (s : TradeState) : List (Option Int × ℚ × ℚ) → List ℚ
  | [] => [s.stop_loss]
  | (td, p, a) :: rest => s.stop_loss :: slTrace (checkAndUpdateSl s td p a) rest

/-! ### Helper lemmas about the trailing stop manager -/

theorem maybeUpdateSl_position (s : TradeState) (td : Option Int) (n : ℚ) :
    (maybeUpdateSl s td n).position = s.position := by
  simp only [maybeUpdateSl]
  split_ifs <;> rfl

theorem maybeUpdateSl_stop_buy (s : TradeState) (td : Option Int) (n : ℚ)
    (h : s.position = "BUY") :
    (maybeUpdateSl s td n).stop_loss = s.stop_loss ∨
      s.stop_loss < (maybeUpdateSl s td n).stop_loss := by
  simp only [maybeUpdateSl]
  split_ifs with h1 h2 h3
  · exact Or.inl rfl
  · exact Or.inl rfl
  · exact Or.inl rfl
  · right
    simp only [h, true_and, not_le] at h2
    exact h2

theorem maybeUpdateSl_stop_sell (s : TradeState) (td : Option Int) (n : ℚ)
    (h : s.position = "SELL") :
    (maybeUpdateSl s td n).stop_loss = s.stop_loss ∨
      (maybeUpdateSl s td n).stop_loss < s.stop_loss := by
  simp only [maybeUpdateSl]
  split_ifs with h1 h2 h3
  · exact Or.inl rfl
  · exact Or.inl rfl
  · exact Or.inl rfl
  · right
    simp only [h, true_and, not_le] at h3
    exact h3

theorem handleBuySl_position (s : TradeState) (td : Option Int) (p a : ℚ) :
    (handleBuySl s td p a).position = s.position := by
  simp only [handleBuySl]
  split_ifs <;> first | rfl | exact maybeUpdateSl_position s td _

theorem handleBuySl_stop (s : TradeState) (td : Option Int) (p a : ℚ)
    (h : s.position = "BUY") :
    (handleBuySl s td p a).stop_loss = s.stop_loss ∨
      s.stop_loss < (handleBuySl s td p a).stop_loss := by
  simp only [handleBuySl]
  split_ifs <;> first | exact Or.inl rfl | exact maybeUpdateSl_stop_buy s td _ h

theorem handleSellSl_position (s : TradeState) (td : Option Int) (p a : ℚ) :
    (handleSellSl s td p a).position = s.position := by
  simp only [handleSellSl]
  split_ifs <;> first | rfl | exact maybeUpdateSl_position s td _

theorem handleSellSl_stop (s : TradeState) (td : Option Int) (p a : ℚ)
    (h : s.position = "SELL") :
    (handleSellSl s td p a).stop_loss = s.stop_loss ∨
      (handleSellSl s td p a).stop_loss < s.stop_loss := by
  simp only [handleSellSl]
  split_ifs <;> first | exact Or.inl rfl | exact maybeUpdateSl_stop_sell s td _ h

theorem checkAndUpdateSl_position (s : TradeState) (td : Option Int) (p a : ℚ) :
    (checkAndUpdateSl s td p a).position = s.position := by
  simp only [checkAndUpdateSl]
  split_ifs with h1 h2 h3 h4 h5
  · rfl
  · exact maybeUpdateSl_position s td _
  · exact maybeUpdateSl_position s td _
  · exact handleBuySl_position s td p a
  · exact handleSellSl_position s td p a
  · rfl

theorem checkAndUpdateSl_stop_buy (s : TradeState) (td : Option Int) (p a : ℚ)
    (h : s.position = "BUY") :
    (checkAndUpdateSl s td p a).stop_loss = s.stop_loss ∨
      s.stop_loss < (checkAndUpdateSl s td p a).stop_loss := by
  simp only [checkAndUpdateSl]
  split_ifs with h1 h2
  · exact Or.inl rfl
  · exact maybeUpdateSl_stop_buy s td _ h
  · exact handleBuySl_stop s td p a h

theorem checkAndUpdateSl_stop_sell (s : TradeState) (td : Option Int) (p a : ℚ)
    (h : s.position = "SELL") :
    (checkAndUpdateSl s td p a).stop_loss = s.stop_loss ∨
      (checkAndUpdateSl s td p a).stop_loss < s.stop_loss := by
  simp only [checkAndUpdateSl]
  split_ifs with h1 h2 h3 h4
  · exact Or.inl rfl
  · exact maybeUpdateSl_stop_sell s td _ h
  · exact maybeUpdateSl_stop_sell s td _ h
  · exact absurd (h.symm.trans h4) (by decide)
  · exact handleSellSl_stop s td p a h

theorem slTrace_head (s : TradeState) (calls : List (Option Int × ℚ × ℚ)) :
    (slTrace s calls).head? = some s.stop_loss := by
  cases calls with
  | nil => rfl
  | cons c rest => obtain ⟨td, p, a⟩ := c; rfl

/-! ### Claim C1: refusing a second entry -/

/-- A concrete state describing an already-open BUY trade, used to evaluate
`placeOrder` on the refused path. -/
def openTradeState : TradeState :=
  { stop_loss := 95
    trade_direction := "BUY"
    last_sl_update_time := none
    last_exit_time := none
    last_exit_price := none
    trade_id := 7
    strategy := "ORB"
    open_trade := true
    entry_time := some 1000
    target_price := 130
    entry_price := 100
    position := "BUY"
    date := some 5
    qty := 25
    trade_type := "BUY"
    checked_post_entry := false }

/-- Claim C1: calling `place_order` while a trade is open must leave every
field of the trade state unchanged.  Evaluating the embedded `placeOrder` on
a concrete open BUY trade shows the attempt is indeed refused (no fresh id,
entry time, target or quantity, and no trade recorded), but the fields
`trade_direction`, `entry_price`, `stop_loss` and `strategy` are silently
overwritten by the pre-check assignments of lines 32-35, contradicting the
claim (and the specification text, which the claim restates). -/
theorem placeOrder_overwrites_fields_when_open :
    (placeOrder openTradeState 2000 8 25 6 [] (some 5) "SELL" 200 190 "VWAP_REV" 1).trade_direction
        = "SELL" ∧
    (placeOrder openTradeState 2000 8 25 6 [] (some 5) "SELL" 200 190 "VWAP_REV" 1).entry_price
        = 200 ∧
    (placeOrder openTradeState 2000 8 25 6 [] (some 5) "SELL" 200 190 "VWAP_REV" 1).stop_loss
        = 190 ∧
    (placeOrder openTradeState 2000 8 25 6 [] (some 5) "SELL" 200 190 "VWAP_REV" 1).strategy
        = "VWAP_REV" ∧
    openTradeState.trade_direction = "BUY" ∧
    openTradeState.entry_price = 100 ∧
    openTradeState.stop_loss = 95 ∧
    openTradeState.strategy = "ORB" ∧
    (placeOrder openTradeState 2000 8 25 6 [] (some 5) "SELL" 200 190 "VWAP_REV" 1).trade_id
        = openTradeState.trade_id ∧
    (placeOrder openTradeState 2000 8 25 6 [] (some 5) "SELL" 200 190 "VWAP_REV" 1).entry_time
        = openTradeState.entry_time ∧
    (placeOrder openTradeState 2000 8 25 6 [] (some 5) "SELL" 200 190 "VWAP_REV" 1).target_price
        = openTradeState.target_price ∧
    (placeOrder openTradeState 2000 8 25 6 [] (some 5) "SELL" 200 190 "VWAP_REV" 1).qty
        = openTradeState.qty ∧
    (placeOrder openTradeState 2000 8 25 6 [] (some 5) "SELL" 200 190 "VWAP_REV" 1).open_trade
        = true :=
  ⟨rfl, rfl, rfl, rfl, rfl, rfl, rfl, rfl, rfl, rfl, rfl, rfl, rfl⟩

/-! ### Claim C2: monotone trailing stop -/

/-- Claim C2: across any sequence of calls to the trailing stop manager the
accepted stop values never regress: each consecutive pair of stops in the
trace is either unchanged (the candidate was rejected) or strictly more
favorable — strictly higher for a BUY position, strictly lower for a SELL
position. -/
theorem trailing_stop_never_regresses (s : TradeState)
    (calls : List (Option Int × ℚ × ℚ)) :
    (s.position = "BUY" →
      (slTrace s calls).Chain' (fun x y => x = y ∨ x < y)) ∧
    (s.position = "SELL" →
      (slTrace s calls).Chain' (fun x y => x = y ∨ y < x)) := by
  induction calls generalizing s with
  | nil => constructor <;> intro _ <;> simp [slTrace]
  | cons c rest ih =>
    obtain ⟨td, p, a⟩ := c
    constructor
    · intro h
      rw [slTrace, List.chain'_cons']
      refine ⟨?_, (ih (checkAndUpdateSl s td p a)).1
        (by rw [checkAndUpdateSl_position]; exact h)⟩
      intro y hy
      rw [slTrace_head, Option.mem_def, Option.some_inj] at hy
      subst hy
      rcases checkAndUpdateSl_stop_buy s td p a h with he | hl
      · exact Or.inl he.symm
      · exact Or.inr hl
    · intro h
      rw [slTrace, List.chain'_cons']
      refine ⟨?_, (ih (checkAndUpdateSl s td p a)).2
        (by rw [checkAndUpdateSl_position]; exact h)⟩
      intro y hy
      rw [slTrace_head, Option.mem_def, Option.some_inj] at hy
      subst hy
      rcases checkAndUpdateSl_stop_sell s td p a h with he | hl
      · exact Or.inl he.symm
      · exact Or.inr hl

/-- An open BUY trade with a far-away target, used to exercise the trailing
stop theorem on a call that accepts a higher stop. -/
def buyTrailState : TradeState :=
  { openTradeState with
      entry_time := some 0
      target_price := 10000 }

/-- An open SELL trade with a far-away target. -/
def sellTrailState : TradeState :=
  { openTradeState with
      entry_time := some 0
      target_price := 1
      position := "SELL"
      trade_direction := "SELL"
      trade_type := "SELL"
      stop_loss := 105 }

/-- Witness for C2: the monotonicity theorem applied at concrete BUY and
SELL states and a concrete price path. -/
theorem trailing_stop_never_regresses_witness :
    (slTrace buyTrailState [(some 200, 120, 6)]).Chain' (fun x y => x = y ∨ x < y) ∧
    (slTrace sellTrailState [(some 200, 80, 6)]).Chain' (fun x y => x = y ∨ y < x) :=
  ⟨(trailing_stop_never_regresses buyTrailState [(some 200, 120, 6)]).1 rfl,
   (trailing_stop_never_regresses sellTrailState [(some 200, 80, 6)]).2 rfl⟩

/-! ### Claim C4: net profit and loss -/

/-- Claim C4: for every entry, exit, quantity, direction and trade type, the
net P&L computed by the executor equals the formula of the specification:
direction-dependent gross, doubled capped brokerage, sell-side STT, GST at
18 percent of brokerage, regulatory fee on turnover, buy-side stamp duty,
rounded to two decimals; the computation is a pure function of its five
inputs. -/
theorem calculatePnl_matches_spec (entry exitPrice qty : ℚ)
    (direction tradeType : String)
    (hdir : direction = "BUY" ∨ direction = "SELL") :
    calculatePnl entry exitPrice qty direction tradeType =
      specNetPnl entry exitPrice qty direction tradeType := by
  rcases hdir with h | h <;> subst h <;>
    simp only [calculatePnl, specNetPnl, beq_iff_eq]

/-- Witness for C4: the P&L theorem applied at the numeric example of the
specification (entry 22000, exit 22050, qty 25, BUY/BUY), together with the
exact value that both sides evaluate to. -/
theorem calculatePnl_matches_spec_witness :
    (("BUY" : String) = "BUY" ∨ ("BUY" : String) = "SELL") ∧
    calculatePnl 22000 22050 25 "BUY" "BUY" = specNetPnl 22000 22050 25 "BUY" "BUY" ∧
    calculatePnl 22000 22050 25 "BUY" "BUY" = 11852/10 :=
  ⟨Or.inl rfl,
   calculatePnl_matches_spec 22000 22050 25 "BUY" "BUY" (Or.inl rfl),
   by
     simp only [calculatePnl, beq_iff_eq]
     norm_num [round2, roundHalfEven,
       show (("BUY" : String) = "SELL") = False from eq_false (by decide)]⟩

/-! ### Rows, trade decisions and the signal evaluators (src/tradewin_strategy.py)

A pandas row is embedded as a record of optional columns.  On each field the
outer `Option` is presence of the column (access to a missing column raises
`KeyError`); the inner `Val` carries NaN.  The `date` cell, when present, is
either a timestamp or NaT (`none`), and calling `.time()` on NaT raises.
The evaluator bodies live in `Except String`; the surrounding
`try/except Exception` of each `evaluate` method is the total wrapper
converting an error into an invalid decision. -/

/-- A timestamp: calendar day index and second of day. -/
structure Dt where
  day : Int
  sec : Int
  deriving DecidableEq

/-- Embeds the `TradeDecision` dataclass (src/tradewin_config.py).  A Python
`None` in the `entry`/`sl`/`target` slots and a NaN float are both modelled
by `none`; `date` is `none` for both `None` and NaT. -/
structure TradeDecision where
  date : Option Dt
  signal : Option String
  entry : Val
  sl : Val
  target : Val
  valid : Bool
  strategy : Option String
  reason : String
  deriving DecidableEq

/-- A market-data row with the columns the evaluators and the filter chain
read. -/
structure Row where
  open_ : Option Val
  high : Option Val
  low : Option Val
  close : Option Val
  date : Option (Option Dt)
  vwap_rev : Option Val
  atr : Option Val
  ema20 : Option Val
  rsi14 : Option Val
  prev_close : Option Val
  open_prev_1 : Option Val
  close_prev_1 : Option Val
  orb_long_entry : Option Val
  orb_short_entry : Option Val
  orb_sl : Option Val
  orb_target : Option Val
  deriving DecidableEq

/-- Column access on a row: raises `KeyError` when the column is absent. -/
def col {α : Type} (v : Option α) (name : String) : Except String α :=
  match v with
  | some x => Except.ok x
  | none => Except.error ("KeyError: " ++ name)

@[simp] theorem col_some {α : Type} (x : α) (n : String) : col (some x) n = Except.ok x := rfl

/-- The all-invalid decision each rejection branch returns, with its reason. -/
def invalidDecision (reason : String) : TradeDecision :=
  { date := none, signal := none, entry := none, sl := none, target := none,
    valid := false, strategy := none, reason := reason }

/-- The decision produced by the `except Exception` handler of an evaluator. -/
def exceptionDecision (e : String) : TradeDecision :=
  invalidDecision ("Exception: " ++ e)

/-- NaN-propagating division (used only after the divisor was checked against
exact zero, since Python raises on float division by zero). -/
def Val.div : Val → Val → Val
  | some a, some b => some (a / b)
  | _, _ => none

/-- Rounding of a float cell: `round(nan, 2)` is NaN. -/
def Val.round2 : Val → Val
  | some q => some (Tradewin.round2 q)
  | none => none

/-- The configuration the reversion evaluator reads in `__init__`
(`vwap_dev` and `rr_threshold`; the stop and target multipliers are unused in
`evaluate`). -/
structure VwapParams where
  dev : ℚ
  rr_threshold : ℚ

/-- Embeds the `try` body of `VWAPStrategy.evaluate`
(src/tradewin_strategy.py, lines 100-166), in the order the code reads the
columns and tests its guards. -/
def vwapBody (P : VwapParams) (row : Row) : Except String TradeDecision := do
  let entry ← col row.close "close"
  let vwap ← col row.vwap_rev "VWAP_REV"
  let atr ← col row.atr "ATR"
  let ema20 ← col row.ema20 "EMA20"
  let prevClose ← col row.prev_close "prev_close"
  let opn ← col row.open_ "open"
  let high ← col row.high "high"
  let low ← col row.low "low"
  let body := Val.abs (Val.sub entry opn)
  let candleRange := Val.sub high low
  if Val.lt candleRange (some 5) || Val.lt body (Val.mul (some (1/4)) candleRange) then
    return invalidDecision ("Weak candle " ++ Val.repr entry)
  if Val.isna entry || Val.isna atr then
    return invalidDecision "Missing entry or ATR"
  let rsi ← col row.rsi14 "RSI14"
  if Val.isna vwap || Val.isna atr || Val.isna rsi || Val.isna ema20 || Val.isna prevClose then
    return invalidDecision "Missing indicator value(s)"
  let atrOverEntry ← if entry = some 0 then Except.error "float division by zero"
    else pure (Val.div atr entry)
  if Val.lt atrOverEntry (some (1/10000)) || Val.lt atr (some 5) then
    return invalidDecision ("ATR too low " ++ Val.repr atr ++ " < 5")
  let thresholdAbove := Val.add vwap (Val.mul (some P.dev) entry)
  let thresholdBelow := Val.sub vwap (Val.mul (some P.dev) entry)
  if Val.lt thresholdAbove entry && Val.le prevClose thresholdAbove && Val.lt ema20 entry then
    let dt ← col row.date "date"
    let sl ← col row.orb_sl "orb_sl"
    let target ← col row.orb_target "orb_target"
    let ok := Val.le (Val.mul (some P.rr_threshold) (Val.sub entry sl)) (Val.sub target entry)
    if Val.lt (Val.sub target entry) (Val.mul (some P.rr_threshold) (Val.sub entry sl)) then
      return { date := none, signal := none, entry := none, sl := none, target := none,
               valid := ok, strategy := none,
               reason := "Risk/reward too low " ++ Val.repr (Val.sub target entry) ++ " < "
                 ++ Val.repr (Val.mul (some P.rr_threshold) (Val.sub entry sl)) }
    return { date := dt, signal := some "BUY", entry := entry, sl := sl, target := target,
             valid := ok, strategy := some "VWAP_REV", reason := "" }
  if Val.lt entry thresholdBelow && Val.le thresholdBelow prevClose && Val.lt entry ema20 then
    let dt ← col row.date "date"
    let sl ← col row.orb_sl "orb_sl"
    let target ← col row.orb_target "orb_target"
    let ok := Val.lt (Val.sub target entry) (Val.mul (some P.rr_threshold) (Val.sub entry sl))
    if Val.lt (Val.sub entry target) (Val.mul (some P.rr_threshold) (Val.sub sl entry)) then
      return { date := none, signal := none, entry := none, sl := none, target := none,
               valid := ok, strategy := none,
               reason := "Risk/reward too low " ++ Val.repr (Val.sub entry target) ++ " < "
                 ++ Val.repr (Val.mul (some P.rr_threshold) (Val.sub sl entry)) }
    return { date := dt, signal := some "SELL", entry := entry, sl := sl, target := target,
             valid := ok, strategy := some "VWAP_REV", reason := "" }
  return invalidDecision "No VWAP_REV signal conditions met"

/-- Embeds `VWAPStrategy.evaluate` (src/tradewin_strategy.py, lines 100-173):
the `try` body with the `except Exception` handler that converts any raised
error into an invalid decision carrying the message. -/
def vwapEvaluate (P : VwapParams) (row : Row) : TradeDecision :=
  match vwapBody P row with
  | Except.ok d => d
  | Except.error e => exceptionDecision e

/-- Embeds the `try` body of `ORBStrategy.evaluate`
(src/tradewin_strategy.py, lines 181-238).  `row['date'].time()` raises on
NaT; the trading window is 09:30:00 to 15:25:00 in seconds of day. -/
def orbBody (row : Row) : Except String TradeDecision := do
  let close ← col row.close "close"
  let opn ← col row.open_ "open"
  let body := Val.abs (Val.sub close opn)
  let high ← col row.high "high"
  let low ← col row.low "low"
  let candleRange := Val.sub high low
  let dateVal ← col row.date "date"
  let currentTime ← match dateVal with
    | some dt => Except.ok dt.sec
    | none => Except.error "NaTType does not support time"
  if !(decide (34200 ≤ currentTime) && decide (currentTime ≤ 55500)) then
    return invalidDecision "Outside trading window"
  if Val.lt candleRange (some 5) || Val.lt body (Val.mul (some (1/4)) candleRange) then
    return invalidDecision ("Weak candle " ++ Val.repr close)
  let atr ← col row.atr "ATR"
  if Val.isna atr || Val.lt atr (some 10) then
    return invalidDecision ("ATR " ++ Val.repr (Val.round2 atr) ++ " < 10 or missing")
  let closePrev ← col row.close_prev_1 "close_prev_1"
  let openPrev ← col row.open_prev_1 "open_prev_1"
  let bullish := Val.lt openPrev closePrev
  let bearish := Val.lt closePrev openPrev
  let longEntry ← col row.orb_long_entry "orb_long_entry"
  let shortEntry ← col row.orb_short_entry "orb_short_entry"
  if Val.isna longEntry || Val.isna shortEntry then
    return invalidDecision "Missing ORB levels"
  if Val.le longEntry high && bullish then
    let slDist ← col row.orb_sl "orb_sl"
    let targetDist ← col row.orb_target "orb_target"
    return { date := dateVal, signal := some "BUY", entry := close,
             sl := Val.sub close slDist, target := Val.add close targetDist,
             valid := true, strategy := some "ORB", reason := "" }
  if Val.le low shortEntry && bearish then
    let slDist ← col row.orb_sl "orb_sl"
    let targetDist ← col row.orb_target "orb_target"
    return { date := dateVal, signal := some "SELL", entry := close,
             sl := Val.add close slDist, target := Val.sub close targetDist,
             valid := true, strategy := some "ORB", reason := "" }
  return invalidDecision "No ORB conditions met"

/-- Embeds `ORBStrategy.evaluate` (src/tradewin_strategy.py, lines 181-245):
the `try` body together with the `except Exception` handler. -/
def orbEvaluate (row : Row) : TradeDecision :=
  match orbBody row with
  | Except.ok d => d
  | Except.error e => exceptionDecision e

/-! ### Claim C8: evaluators always return a decision -/

/-- Claim C8: both evaluators are total functions of the row (they mutate no
state, being pure functions in this embedding): for every row, whatever the
`try` body does — return a decision or raise — the evaluator returns a
`TradeDecision`; a raised exception is converted into an invalid decision
whose reason carries the exception message. -/
theorem evaluators_total_and_catch (P : VwapParams) (row : Row) :
    (∀ d, vwapBody P row = Except.ok d → vwapEvaluate P row = d) ∧
    (∀ e, vwapBody P row = Except.error e →
        vwapEvaluate P row = exceptionDecision e ∧
        (vwapEvaluate P row).valid = false ∧
        (vwapEvaluate P row).reason = "Exception: " ++ e) ∧
    (∀ d, orbBody row = Except.ok d → orbEvaluate row = d) ∧
    (∀ e, orbBody row = Except.error e →
        orbEvaluate row = exceptionDecision e ∧
        (orbEvaluate row).valid = false ∧
        (orbEvaluate row).reason = "Exception: " ++ e) := by
  refine ⟨?_, ?_, ?_, ?_⟩ <;> intro x hx <;>
    simp [vwapEvaluate, orbEvaluate, hx, exceptionDecision, invalidDecision]

/-- A row none of whose columns is present: the first access raises. -/
def emptyRow : Row :=
  { open_ := none, high := none, low := none, close := none, date := none,
    vwap_rev := none, atr := none, ema20 := none, rsi14 := none,
    prev_close := none, open_prev_1 := none, close_prev_1 := none,
    orb_long_entry := none, orb_short_entry := none, orb_sl := none,
    orb_target := none }

/-- Default parameters for exercising the reversion evaluator. -/
def defaultVwapParams : VwapParams := { dev := 1/100, rr_threshold := 12/10 }

/-- Witness for C8: on a row with no columns both bodies raise `KeyError`
on `close`, and both evaluators convert it into the invalid decision with
the exception reason. -/
theorem evaluators_total_and_catch_witness :
    vwapEvaluate defaultVwapParams emptyRow = exceptionDecision "KeyError: close" ∧
    orbEvaluate emptyRow = exceptionDecision "KeyError: close" :=
  ⟨((evaluators_total_and_catch defaultVwapParams emptyRow).2.1 "KeyError: close" rfl).1,
   ((evaluators_total_and_catch defaultVwapParams emptyRow).2.2.2 "KeyError: close" rfl).1⟩

/-! ### Claim C3: risk/reward gate of the reversion evaluator -/

/-- A row carrying finite values in every column the reversion evaluator
reads, as the indicator and level-assignment stages produce for it. -/
def mkVwapRow (e o hi lo vw a em pc rsi sl t : ℚ) (dt : Dt) : Row :=
  { open_ := some (some o), high := some (some hi), low := some (some lo),
    close := some (some e), date := some (some dt),
    vwap_rev := some (some vw), atr := some (some a), ema20 := some (some em),
    rsi14 := some (some rsi), prev_close := some (some pc),
    open_prev_1 := none, close_prev_1 := none,
    orb_long_entry := none, orb_short_entry := none,
    orb_sl := some (some sl), orb_target := some (some t) }

@[simp] theorem exceptBind_ok {α β : Type} (a : α) (f : α → Except String β) :
    (Except.ok a : Except String α) >>= f = f a := rfl

@[simp] theorem exceptBind_pure {α β : Type} (a : α) (f : α → Except String β) :
    (pure a : Except String α) >>= f = f a := rfl

@[simp] theorem Val.div_some (a b : ℚ) : Val.div (some a) (some b) = some (a / b) := rfl

theorem vwapBuyGatePass (P : VwapParams) (e o hi lo vw a em pc rsi sl t : ℚ) (dt : Dt)
    (hwk1 : ¬(hi - lo < 5)) (hwk2 : ¬(|e - o| < (1/4) * (hi - lo)))
    (hz : e ≠ 0)
    (ha1 : ¬(a / e < 1/10000)) (ha2 : ¬(a < 5))
    (hb1 : vw + P.dev * e < e) (hb2 : pc ≤ vw + P.dev * e) (hb3 : em < e)
    (hg : P.rr_threshold * (e - sl) ≤ t - e) :
    vwapEvaluate P (mkVwapRow e o hi lo vw a em pc rsi sl t dt) =
      { date := some dt, signal := some "BUY", entry := some e, sl := some sl,
        target := some t, valid := true, strategy := some "VWAP_REV", reason := "" } := by
  simp only [vwapEvaluate, vwapBody, mkVwapRow, col_some, exceptBind_ok, exceptBind_pure,
    Val.div_some, Val.lt_some, Val.le_some, Val.sub_some, Val.add_some, Val.mul_some,
    Val.abs_some, Val.isna_some, Option.some.injEq,
    Bool.or_eq_true, Bool.and_eq_true, decide_eq_true_eq, decide_True, decide_False,
    Bool.false_or, Bool.or_false, Bool.or_self, false_or, or_false, or_self,
    and_true, true_and, and_false, false_and, if_true, if_false, Bool.false_eq_true,
    hwk1, hwk2, hz, ha1, ha2, hb1, hb2, hb3, not_lt.2 hg, hg]
  rfl

theorem vwapBuyGateFail (P : VwapParams) (e o hi lo vw a em pc rsi sl t : ℚ) (dt : Dt)
    (hwk1 : ¬(hi - lo < 5)) (hwk2 : ¬(|e - o| < (1/4) * (hi - lo)))
    (hz : e ≠ 0)
    (ha1 : ¬(a / e < 1/10000)) (ha2 : ¬(a < 5))
    (hb1 : vw + P.dev * e < e) (hb2 : pc ≤ vw + P.dev * e) (hb3 : em < e)
    (hg : t - e < P.rr_threshold * (e - sl)) :
    vwapEvaluate P (mkVwapRow e o hi lo vw a em pc rsi sl t dt) =
      invalidDecision ("Risk/reward too low " ++ Val.repr (some (t - e)) ++ " < "
        ++ Val.repr (some (P.rr_threshold * (e - sl)))) := by
  simp only [vwapEvaluate, vwapBody, mkVwapRow, col_some, exceptBind_ok, exceptBind_pure,
    Val.div_some, Val.lt_some, Val.le_some, Val.sub_some, Val.add_some, Val.mul_some,
    Val.abs_some, Val.isna_some, Option.some.injEq, invalidDecision,
    Bool.or_eq_true, Bool.and_eq_true, decide_eq_true_eq, decide_True, decide_False,
    Bool.false_or, Bool.or_false, Bool.or_self, false_or, or_false, or_self,
    and_true, true_and, and_false, false_and, if_true, if_false, Bool.false_eq_true,
    hwk1, hwk2, hz, ha1, ha2, hb1, hb2, hb3, not_le.2 hg, hg]
  rfl

theorem vwapSellGateFail (P : VwapParams) (e o hi lo vw a em pc rsi sl t : ℚ) (dt : Dt)
    (hwk1 : ¬(hi - lo < 5)) (hwk2 : ¬(|e - o| < (1/4) * (hi - lo)))
    (hz : e ≠ 0)
    (ha1 : ¬(a / e < 1/10000)) (ha2 : ¬(a < 5))
    (hs1 : e < vw - P.dev * e) (hs2 : vw - P.dev * e ≤ pc) (hs3 : e < em)
    (hg : e - t < P.rr_threshold * (sl - e)) :
    vwapEvaluate P (mkVwapRow e o hi lo vw a em pc rsi sl t dt) =
      invalidDecision ("Risk/reward too low " ++ Val.repr (some (e - t)) ++ " < "
        ++ Val.repr (some (P.rr_threshold * (sl - e)))) := by
  have hmirror : P.rr_threshold * (e - sl) = -(P.rr_threshold * (sl - e)) := by ring
  have hok : ¬(t - e < P.rr_threshold * (e - sl)) := by
    rw [hmirror]
    intro hcon
    linarith
  simp only [vwapEvaluate, vwapBody, mkVwapRow, col_some, exceptBind_ok, exceptBind_pure,
    Val.div_some, Val.lt_some, Val.le_some, Val.sub_some, Val.add_some, Val.mul_some,
    Val.abs_some, Val.isna_some, Option.some.injEq, invalidDecision,
    Bool.or_eq_true, Bool.and_eq_true, decide_eq_true_eq, decide_True, decide_False,
    Bool.false_or, Bool.or_false, Bool.or_self, false_or, or_false, or_self,
    and_true, true_and, and_false, false_and, if_true, if_false, Bool.false_eq_true,
    hwk1, hwk2, hz, ha1, ha2, lt_asymm hs3, hs1, hs2, hs3, hok, hg]
  rfl

theorem vwapSellGatePass (P : VwapParams) (e o hi lo vw a em pc rsi sl t : ℚ) (dt : Dt)
    (hwk1 : ¬(hi - lo < 5)) (hwk2 : ¬(|e - o| < (1/4) * (hi - lo)))
    (hz : e ≠ 0)
    (ha1 : ¬(a / e < 1/10000)) (ha2 : ¬(a < 5))
    (hs1 : e < vw - P.dev * e) (hs2 : vw - P.dev * e ≤ pc) (hs3 : e < em)
    (hg : P.rr_threshold * (sl - e) ≤ e - t) :
    vwapEvaluate P (mkVwapRow e o hi lo vw a em pc rsi sl t dt) =
      { date := some dt, signal := some "SELL", entry := some e, sl := some sl,
        target := some t, valid := decide (t - e < P.rr_threshold * (e - sl)),
        strategy := some "VWAP_REV", reason := "" } := by
  have hng : ¬(e - t < P.rr_threshold * (sl - e)) := not_lt.2 hg
  simp only [vwapEvaluate, vwapBody, mkVwapRow, col_some, exceptBind_ok, exceptBind_pure,
    Val.div_some, Val.lt_some, Val.le_some, Val.sub_some, Val.add_some, Val.mul_some,
    Val.abs_some, Val.isna_some, Option.some.injEq,
    Bool.or_eq_true, Bool.and_eq_true, decide_eq_true_eq, decide_True, decide_False,
    Bool.false_or, Bool.or_false, Bool.or_self, false_or, or_false, or_self,
    and_true, true_and, and_false, false_and, if_true, if_false, Bool.false_eq_true,
    hwk1, hwk2, hz, ha1, ha2, lt_asymm hs3, hs1, hs2, hs3, hng]
  rfl

/-- Claim C3: on any row where the reversion evaluator emits a directional
signal (weak-candle, missing-value and ATR guards passed, band crossed with
trend confirmation), the returned decision respects the risk/reward gate:
when the gate holds a BUY decision is valid (and a SELL decision is valid
exactly when the mirrored inequality is strict); when the gate fails the
decision is invalid and its reason reports the two compared numbers. -/
theorem vwap_risk_reward_gate (P : VwapParams) (e o hi lo vw a em pc rsi sl t : ℚ) (dt : Dt)
    (hwk1 : ¬(hi - lo < 5)) (hwk2 : ¬(|e - o| < (1/4) * (hi - lo)))
    (hz : e ≠ 0)
    (ha1 : ¬(a / e < 1/10000)) (ha2 : ¬(a < 5)) :
    (vw + P.dev * e < e → pc ≤ vw + P.dev * e → em < e →
      ((P.rr_threshold * (e - sl) ≤ t - e →
          vwapEvaluate P (mkVwapRow e o hi lo vw a em pc rsi sl t dt) =
            { date := some dt, signal := some "BUY", entry := some e, sl := some sl,
              target := some t, valid := true, strategy := some "VWAP_REV",
              reason := "" }) ∧
       (t - e < P.rr_threshold * (e - sl) →
          vwapEvaluate P (mkVwapRow e o hi lo vw a em pc rsi sl t dt) =
            invalidDecision ("Risk/reward too low " ++ Val.repr (some (t - e)) ++ " < "
              ++ Val.repr (some (P.rr_threshold * (e - sl))))))) ∧
    (e < vw - P.dev * e → vw - P.dev * e ≤ pc → e < em →
      ((e - t < P.rr_threshold * (sl - e) →
          vwapEvaluate P (mkVwapRow e o hi lo vw a em pc rsi sl t dt) =
            invalidDecision ("Risk/reward too low " ++ Val.repr (some (e - t)) ++ " < "
              ++ Val.repr (some (P.rr_threshold * (sl - e))))) ∧
       (P.rr_threshold * (sl - e) ≤ e - t →
          vwapEvaluate P (mkVwapRow e o hi lo vw a em pc rsi sl t dt) =
            { date := some dt, signal := some "SELL", entry := some e, sl := some sl,
              target := some t, valid := decide (t - e < P.rr_threshold * (e - sl)),
              strategy := some "VWAP_REV", reason := "" }) ∧
       ((t - e < P.rr_threshold * (e - sl)) ↔ P.rr_threshold * (sl - e) < e - t))) := by
  constructor
  · intro hb1 hb2 hb3
    exact ⟨vwapBuyGatePass P e o hi lo vw a em pc rsi sl t dt
             hwk1 hwk2 hz ha1 ha2 hb1 hb2 hb3,
           vwapBuyGateFail P e o hi lo vw a em pc rsi sl t dt
             hwk1 hwk2 hz ha1 ha2 hb1 hb2 hb3⟩
  · intro hs1 hs2 hs3
    refine ⟨vwapSellGateFail P e o hi lo vw a em pc rsi sl t dt
              hwk1 hwk2 hz ha1 ha2 hs1 hs2 hs3,
            vwapSellGatePass P e o hi lo vw a em pc rsi sl t dt
              hwk1 hwk2 hz ha1 ha2 hs1 hs2 hs3, ?_, ?_⟩
    · intro h
      nlinarith [h]
    · intro h
      nlinarith [h]


/-- Witness for C3: the gate theorem applied at concrete numbers on the BUY
path whose risk/reward gate fails (entry 100, stop 0, target 0, threshold
1.2): the evaluator returns the invalid decision with the numeric reason. -/
theorem vwap_risk_reward_gate_witness :
    vwapEvaluate defaultVwapParams (mkVwapRow 100 90 105 85 90 6 95 91 50 0 0 ⟨0, 36000⟩) =
      invalidDecision ("Risk/reward too low " ++ Val.repr (some ((0 : ℚ) - 100)) ++ " < "
        ++ Val.repr (some (defaultVwapParams.rr_threshold * (100 - 0)))) :=
  ((vwap_risk_reward_gate defaultVwapParams 100 90 105 85 90 6 95 91 50 0 0 ⟨0, 36000⟩
      (by norm_num) (by norm_num) (by norm_num) (by norm_num) (by norm_num)).1
    (by norm_num [defaultVwapParams]) (by norm_num [defaultVwapParams]) (by norm_num)).2
    (by norm_num [defaultVwapParams])

/-! ### The signal filter chain (`MarketData.decide_trade_from_row`,
src/tradewin_marketdata.py, lines 138-205, and its guard helpers)

The chain runs on an already-produced decision; it is embedded from the line
where the evaluator result is checked (line 148) onwards.  The surrounding
context (the prepared frame and the trade state) is collected in
`FilterCtx`: the `volume` column and the `open`/`close` columns of the
parent frame, the integer position of the signal row, the signal row itself,
and the last-exit bookkeeping of the trade state.  `decide_trade_from_row`
catches nothing, so the chain lives in `Except String` like the raises it
can propagate.  Timezone normalisation of naive timestamps (lines 188-189,
231-234, 247-250) does not change elapsed-seconds arithmetic and is the
identity here; a NaT date cell is reported as an error since the later
guards would do arithmetic on it. -/

/-- Absolute second count of a timestamp. -/
def Dt.seconds (d : Dt) : Int := d.day * 86400 + d.sec

/-- Embeds `parent_df['volume'].rolling(window=14).mean().iloc[i]`
(src/tradewin_marketdata.py, line 163): the mean of the window of 14 values
ending at (and including) position `i`, NaN while fewer than 14 observations
exist. -/
def rollingMean14 (vols : List ℚ) (i : ℕ) : Option ℚ :=
  if i + 1 < 14 ∨ vols.length ≤ i then none
  else some (((vols.drop (i + 1 - 14)).take 14).sum / 14)

/-- Embeds `MarketData.is_momentum_confirmed` (src/tradewin_marketdata.py,
lines 209-221): the three bars strictly before position `i` must all close
in the direction of the signal; fewer than three prior bars fail. -/
def isMomentumConfirmed (opens closes : List Val) (i : ℕ) (direction : String) : Bool :=
  if i < 3 then false
  else if direction.toUpper == "SELL" then
    (List.range 3).all fun k =>
      Val.lt (closes.getD (i - 3 + k) none) (opens.getD (i - 3 + k) none)
  else
    (List.range 3).all fun k =>
      Val.lt (opens.getD (i - 3 + k) none) (closes.getD (i - 3 + k) none)

/-- Embeds `MarketData.is_post_trade_candle_weak` (src/tradewin_marketdata.py,
lines 241-259): within the cooldown window after the last exit, a weak
candle (small range or small body) is flagged. -/
def isPostTradeCandleWeak (cooldownSecs : Int) (row : Row) (tradeTime : Dt)
    (entryTime : Int) : Except String Bool := do
  let age := tradeTime.seconds - entryTime
  let close ← col row.close "close"
  let opn ← col row.open_ "open"
  let body := Val.abs (Val.sub close opn)
  let high ← col row.high "high"
  let low ← col row.low "low"
  let candleRange := Val.sub high low
  pure (decide (age < cooldownSecs) &&
    (Val.lt candleRange (some 5) || Val.lt body (Val.mul (some (1/4)) candleRange)))

/-- Embeds `MarketData.is_reentry_in_same_zone` (src/tradewin_marketdata.py,
lines 223-239).  `if not last_exit_price or not last_exit_time` is Python
truthiness: a missing last exit, or a last exit price of `0.0`, disables the
guard. -/
def isReentryInSameZone (cooldownSecs : Int) (price : Val) (lastExitPrice : Option ℚ)
    (lastExitTime : Option Int) (atr : Val) (currentTime : Dt) : Bool :=
  match lastExitPrice, lastExitTime with
  | some lep, some letime =>
    if lep = 0 then false
    else
      Val.lt (Val.abs (Val.sub price (some lep))) (Val.mul (some (1/2)) atr) &&
        decide (currentTime.seconds - letime < cooldownSecs)
  | _, _ => false

/-- Embeds `MarketData.has_price_moved_enough_after_pullback`
(src/tradewin_marketdata.py, lines 261-274): re-entry is permitted only when
the price is strictly beyond the last exit price by half an ATR in the trade
direction; `if not last_exit_price` is Python truthiness. -/
def hasPriceMovedEnoughAfterPullback (price : Val) (lastExitPrice : Option ℚ)
    (direction : Option String) (atr : Val) : Bool :=
  match lastExitPrice with
  | none => false
  | some lep =>
    if lep = 0 then false
    else if decide (direction = some "SELL") &&
        Val.lt price (Val.sub (some lep) (Val.mul (some (1/2)) atr)) then true
    else if decide (direction = some "BUY") &&
        Val.lt (Val.add (some lep) (Val.mul (some (1/2)) atr)) price then true
    else false

/-- Python truthiness of the optional `last_exit_price` float. -/
def truthyPrice : Option ℚ → Bool
  | none => false
  | some q => decide (q ≠ 0)

/-- The reason string of the volume guard (line 172); float formatting is
abstracted by `toString`. -/
def volumeReason (volume : ℚ) (avg : Option ℚ) : String :=
  "Volume too low: " ++ toString volume ++ " < 1.2x avg (" ++
    (match avg with | some q => toString q | none => "nan") ++ ")"

/-- The context `decide_trade_from_row` reads besides the decision. -/
structure FilterCtx where
  vols : List ℚ
  opens : List Val
  closes : List Val
  idx : ℕ
  row : Row
  lastExitTime : Option Int
  lastExitPrice : Option ℚ
  cooldownSecs : Int

/-- The guards that run after the volume guard passed (src/tradewin_marketdata.py,
lines 175-205): momentum, post-cooldown candle strength, same-zone re-entry,
pullback; the surviving decision is returned unchanged.  `result.signal.upper()`
on a `None` signal raises. -/
def filtersAfterVolume (ctx : FilterCtx) (result : TradeDecision) (atr : Val)
    (rowDate : Dt) : Except String TradeDecision := do
  let dir ← match result.signal with
    | some s => pure s
    | none => Except.error "AttributeError: NoneType has no attribute upper"
  if !(isMomentumConfirmed ctx.opens ctx.closes ctx.idx dir) then
    return { result with valid := false, reason := "Weak momentum across last 3 candles" }
  let weak ← match ctx.lastExitTime with
    | some letime => isPostTradeCandleWeak ctx.cooldownSecs ctx.row rowDate letime
    | none => pure false
  if weak then
    return { result with valid := false, reason := "Weak post-cooldown candle" }
  if isReentryInSameZone ctx.cooldownSecs result.entry ctx.lastExitPrice
      ctx.lastExitTime atr rowDate then
    return { result with valid := false, reason := "Same-zone reentry" }
  if truthyPrice ctx.lastExitPrice &&
      !(hasPriceMovedEnoughAfterPullback result.entry ctx.lastExitPrice
          result.signal atr) then
    return { result with valid := false, reason := "No pullback for re-entry" }
  return result

/-- Embeds the filter chain of `MarketData.decide_trade_from_row`
(src/tradewin_marketdata.py, lines 148-205): an invalid decision passes
through; otherwise the bar volume, the rolling average volume, the signal
row ATR and date are read, the volume guard runs first, and only when it
passes do the remaining guards run. -/
def decideTradeFilters (ctx : FilterCtx) (result : TradeDecision) :
    Except String TradeDecision := do
  if !result.valid then
    return result
  let volume := ctx.vols.getD ctx.idx 0
  let avgVol := rollingMean14 ctx.vols ctx.idx
  let atr ← col ctx.row.atr "ATR"
  let rowDate0 ← col ctx.row.date "date"
  let rowDate ← match rowDate0 with
    | some dd => pure dd
    | none => Except.error "NaTType in date column"
  if avgVol.isNone || decide (volume < 12/10 * avgVol.getD 0) then
    return { result with valid := false, reason := volumeReason volume avgVol }
  filtersAfterVolume ctx result atr rowDate

/-- Claim C5 (amended): for every already-valid decision entering the filter
chain, the volume guard invalidates it with the volume reason — before any
later guard runs — unless the 14-bar rolling average volume over the window
ending at and including the evaluation bar is defined and the bar volume is
at least 1.2 times that average; when the guard passes, the chain continues
with the remaining guards.  (The claim as stated — strict exceedance over an
average of the bars strictly preceding the evaluation point — is refuted by
`volume_guard_counterexample`.) -/
theorem volume_guard_amended (ctx : FilterCtx) (result : TradeDecision) (av : Val) (d : Dt)
    (hvalid : result.valid = true)
    (hatr : ctx.row.atr = some av)
    (hdate : ctx.row.date = some (some d)) :
    (rollingMean14 ctx.vols ctx.idx = none →
        decideTradeFilters ctx result = Except.ok
          { result with valid := false
                        reason := volumeReason (ctx.vols.getD ctx.idx 0) none }) ∧
    (∀ m, rollingMean14 ctx.vols ctx.idx = some m →
      ((ctx.vols.getD ctx.idx 0 < 12/10 * m →
          decideTradeFilters ctx result = Except.ok
            { result with valid := false
                          reason := volumeReason (ctx.vols.getD ctx.idx 0) (some m) }) ∧
       (12/10 * m ≤ ctx.vols.getD ctx.idx 0 →
          decideTradeFilters ctx result = filtersAfterVolume ctx result av d))) := by
  refine ⟨fun hm => ?_, fun m hm => ⟨fun hlt => ?_, fun hge => ?_⟩⟩
  · simp [decideTradeFilters, hvalid, hatr, hdate, hm]
  · have hlt2 : ctx.vols[ctx.idx]?.getD 0 < 12 / 10 * m := by
      simpa [List.getD_eq_getElem?_getD] using hlt
    simp [decideTradeFilters, hvalid, hatr, hdate, hm, hlt2]
  · have hge2 : ¬(ctx.vols[ctx.idx]?.getD 0 < 12 / 10 * m) := by
      simpa [List.getD_eq_getElem?_getD] using not_lt.2 hge
    simp [decideTradeFilters, hvalid, hatr, hdate, hm, hge2]

/-- The signal row used in the volume-guard scenarios. -/
def c5Row : Row :=
  { emptyRow with
      atr := some (some 6)
      date := some (some ⟨0, 36000⟩)
      close := some (some 1000)
      open_ := some (some 990)
      high := some (some 1010)
      low := some (some 980) }

/-- Fourteen bars of volume 100 followed by a bar of volume 121: the rolling
mean including the current bar is 1421/14, while the mean of the 14 bars
strictly preceding the evaluation point is 100. -/
def c5Vols : List ℚ :=
  [100, 100, 100, 100, 100, 100, 100, 100, 100, 100, 100, 100, 100, 100, 121]

/-- Filter context at position 14 of that series, with no previous exit. -/
def c5Ctx : FilterCtx :=
  { vols := c5Vols
    opens := List.replicate 15 (some 1)
    closes := List.replicate 15 (some 2)
    idx := 14
    row := c5Row
    lastExitTime := none
    lastExitPrice := none
    cooldownSecs := 300 }

/-- A valid BUY decision entering the filter chain. -/
def c5Decision : TradeDecision :=
  { date := none, signal := some "BUY", entry := some 1000, sl := some 990,
    target := some 1030, valid := true, strategy := some "ORB", reason := "" }

/-- Counterexample to Claim C5 as stated: at a bar with volume 121 after
fourteen bars of volume 100, the strictly-preceding 14-bar average is 100,
so 121 exceeds 1.2 times it (120); the claim predicts acceptance, but the
code computes the rolling average over the window including the current bar
(1421/14) and rejects with the volume reason. -/
theorem volume_guard_counterexample :
    decideTradeFilters c5Ctx c5Decision = Except.ok
      { c5Decision with valid := false
                        reason := volumeReason 121 (some (1421/14)) } ∧
    (12/10 : ℚ) * ((c5Ctx.vols.take 14).sum / 14) < c5Ctx.vols.getD c5Ctx.idx 0 := by
  have hm : rollingMean14
      [100, 100, 100, 100, 100, 100, 100, 100, 100, 100, 100, 100, 100, 100, 121] 14 =
      some (1421/14) := by
    norm_num [rollingMean14]
  have hc : ((121 : ℚ)) < 12/10 * (1421/14) := by norm_num
  constructor
  · simp [decideTradeFilters, c5Ctx, c5Row, c5Decision, hm, c5Vols, hc]
  · norm_num [c5Ctx, c5Vols]

/-- The spec scenario context: every bar has volume 100, so the bar at
position 14 has exactly the trailing average volume. -/
def c5WitnessCtx : FilterCtx :=
  { c5Ctx with
      vols := [100, 100, 100, 100, 100, 100, 100, 100, 100, 100, 100, 100, 100, 100, 100] }

/-- Witness for C5: the amended theorem applied at the spec scenario — every
volume equal to 100, so the bar volume equals the trailing average and the
guard rejects with the volume reason. -/
theorem volume_guard_amended_witness :
    decideTradeFilters c5WitnessCtx c5Decision = Except.ok
      { c5Decision with valid := false
                        reason := volumeReason (c5WitnessCtx.vols.getD c5WitnessCtx.idx 0) (some 100) } :=
  ((volume_guard_amended c5WitnessCtx c5Decision (some 6) ⟨0, 36000⟩ rfl rfl rfl).2 100
    (by norm_num [rollingMean14, c5WitnessCtx, c5Ctx])).1
    (by norm_num [c5WitnessCtx, c5Ctx])

/-- Counterexample to Claim C7 as stated: with ATR 2 and last exit 100, an
entry of exactly 101 = 100 + 0.5 x ATR satisfies the claimed non-strict
condition, yet the guard refuses the re-entry (the code compares strictly). -/
theorem pullback_guard_boundary_counterexample :
    hasPriceMovedEnoughAfterPullback (some 101) (some 100) (some "BUY") (some 2) = false ∧
    (100 : ℚ) + (1/2) * 2 ≤ 101 := by
  constructor
  · norm_num [hasPriceMovedEnoughAfterPullback, Val.lt, Val.add, Val.sub, Val.mul]
  · norm_num

/-- Claim C7 (amended): for a finite entry price, last exit price, direction
and ATR, the pullback guard permits re-entry exactly when the last exit
price is nonzero (Python truthiness) and the entry has moved strictly more
than 0.5 x ATR beyond the last exit price in the trade direction: strictly
above for BUY, strictly below for SELL; otherwise
`decide_trade_from_row` invalidates the decision with the pullback reason
(embedded in `filtersAfterVolume`). -/
theorem pullback_guard_strict (p l a : ℚ) (dir : String) :
    hasPriceMovedEnoughAfterPullback (some p) (some l) (some dir) (some a) = true ↔
      l ≠ 0 ∧ ((dir = "SELL" ∧ p < l - (1/2) * a) ∨ (dir = "BUY" ∧ l + (1/2) * a < p)) := by
  simp only [hasPriceMovedEnoughAfterPullback, Val.lt_some, Val.sub_some, Val.add_some,
    Val.mul_some]
  split_ifs with h0 h1 h2
  · simp [h0]
  · simp only [Bool.and_eq_true, decide_eq_true_eq, Option.some.injEq] at h1
    obtain ⟨hd, hlt⟩ := h1
    subst hd
    simp [h0]
    linarith
  · simp only [Bool.and_eq_true, decide_eq_true_eq, Option.some.injEq] at h2
    obtain ⟨hd, hlt⟩ := h2
    subst hd
    simp [h0]
    linarith
  · simp only [Bool.and_eq_true, decide_eq_true_eq, not_and, Option.some.injEq] at h1 h2
    constructor
    · intro hfalse
      exact absurd hfalse (by simp)
    · rintro ⟨hl, (⟨hd, hlt⟩ | ⟨hd, hlt⟩)⟩
      · exact absurd (decide_eq_true hlt) (by simpa [hd] using h1 hd)
      · exact absurd (decide_eq_true hlt) (by simpa [hd] using h2 hd)

/-! ### Strategy level assignment (`StrategyApplier`, src/tradewin_strategy.py)

`assign_strategy_levels` (lines 42-81) loops over the calendar dates of the
frame and writes the four breakout-level columns through a date mask; the
loop reads only columns it never writes (`date`, `high`, `low`, `ATR`), so
the masked assignments are rendered per row: each row receives the value the
loop would write for its own date.  The `strategy_map` output parameter is
write-only here and is not modelled.  A row of the frame carries the columns
this function reads and writes; the orb columns of the input hold their
prior values (`none` models the NaN default installed when the columns are
absent, lines 45-47). -/

structure SRow where
  date : Dt
  high : Val
  low : Val
  atr : Val
  orb_long_entry : Val
  orb_short_entry : Val
  orb_sl : Val
  orb_target : Val
  deriving DecidableEq

/-- The opening-range clock window 09:15:00-09:30:00, both ends included. -/
def inMorningWindow (r : SRow) : Bool :=
  decide (33300 ≤ r.date.sec) && decide (r.date.sec ≤ 34200)

/-- The opening-range bars of calendar day `d`. -/
def morningOf (rows : List SRow) (d : Int) : List SRow :=
  rows.filter fun x => decide (x.date.day = d) && inMorningWindow x

/-- pandas `max()` over a column: NaN values are skipped; an empty or
all-NaN column gives NaN. -/
def maxHigh (rows : List SRow) : Option ℚ :=
  rows.foldl (fun acc r =>
    match acc, r.high with
    | none, v => v
    | some m, some v => some (max m v)
    | some m, none => some m) none

/-- pandas `min()` over the low column, skipping NaN. -/
def minLow (rows : List SRow) : Option ℚ :=
  rows.foldl (fun acc r =>
    match acc, r.low with
    | none, v => v
    | some m, some v => some (min m v)
    | some m, none => some m) none

/-- The opening-range high-low span of day `d`
(`morning_range['high'].max() - morning_range['low'].min()`, line 55);
NaN when either aggregate is NaN. -/
def morningSpan (rows : List SRow) (d : Int) : Option ℚ :=
  match maxHigh (morningOf rows d), minLow (morningOf rows d) with
  | some h, some l => some (h - l)
  | _, _ => none

/-- pandas `.mean()` of the high-low differences, skipping NaN; NaN on an
empty or all-NaN series. -/
def meanRange (rows : List SRow) : Option ℚ :=
  let vals := rows.filterMap fun r => Val.sub r.high r.low
  if vals.isEmpty then none else some (vals.sum / (vals.length : ℚ))

/-- Embeds `StrategyApplier.choose_strategy` (src/tradewin_strategy.py,
lines 83-90).  `atr_morning and atr_morning > 15` is Python truthiness
followed by a comparison: a mean of `0.0` is falsy and NaN compares false,
so the result is `ORB` exactly when the mean is a number above 15. -/
def chooseStrategy (grp : List SRow) (adaptive : Bool) (active : String) : String :=
  if !adaptive then active
  else
    match meanRange (grp.filter inMorningWindow) with
    | some v => if 15 < v then "ORB" else "VWAP_REV"
    | none => "VWAP_REV"

/-- The value row `r` receives from the per-date pass of
`assign_strategy_levels` (lines 51-75): skip the date when its opening-range
span is below 25 (a NaN span is not below 25), otherwise broadcast breakout
levels when `ORB` is chosen for the date and zero the four columns when it
is not. -/
def assignForDate (rows : List SRow) (entryBuffer slFactor targetFactor : ℚ)
    (adaptive : Bool) (active : String) (r : SRow) : SRow :=
  let morning := morningOf rows r.date.day
  let span := morningSpan rows r.date.day
  let skip := match span with
    | some v => decide (v < 25)
    | none => false
  if skip then r
  else
    let grp := rows.filter fun x => decide (x.date.day = r.date.day)
    let strategy := chooseStrategy grp adaptive active
    if strategy == "ORB" then
      let atrF := r.atr.getD 20
      let slv := max 20 (atrF * slFactor)
      { r with orb_long_entry := Val.add (maxHigh morning) (some entryBuffer)
               orb_short_entry := Val.sub (minLow morning) (some entryBuffer)
               orb_sl := some slv
               orb_target := some (slv * targetFactor) }
    else
      { r with orb_long_entry := some 0
               orb_short_entry := some 0
               orb_sl := some 0
               orb_target := some 0 }

/-- Embeds `StrategyApplier.assign_strategy_levels`
(src/tradewin_strategy.py, lines 42-81): the per-date loop runs when
adaptive mode is on or the active strategy is `ORB`; afterwards, when the
active strategy is `VWAP_REV`, all four breakout-level columns are set to
zero across the whole series. -/
def assignStrategyLevels (rows : List SRow) (entryBuffer slFactor targetFactor : ℚ)
    (adaptive : Bool) (active : String) : List SRow :=
  let rows1 :=
    if adaptive || active == "ORB" then
      rows.map (assignForDate rows entryBuffer slFactor targetFactor adaptive active)
    else rows
  if active == "VWAP_REV" then
    rows1.map fun r =>
      { r with orb_long_entry := some 0
               orb_short_entry := some 0
               orb_sl := some 0
               orb_target := some 0 }
  else rows1

/-! ### Claims C10 and C6: breakout levels -/

/-- Claim C10: whenever the configured active strategy is `VWAP_REV`,
`assign_strategy_levels` returns a frame whose four breakout-level columns
are zero on every row of the whole series — the final overwrite of lines
78-79 runs after (and regardless of) the adaptive per-day loop, erasing any
levels that loop had just assigned. -/
theorem vwap_rev_zeroes_breakout_levels (rows : List SRow) (eb sf tf : ℚ)
    (adaptive : Bool) (r : SRow)
    (hr : r ∈ assignStrategyLevels rows eb sf tf adaptive "VWAP_REV") :
    r.orb_long_entry = some 0 ∧ r.orb_short_entry = some 0 ∧
    r.orb_sl = some 0 ∧ r.orb_target = some 0 := by
  simp only [assignStrategyLevels, beq_self_eq_true, if_true, List.mem_map] at hr
  rcases hr with ⟨x, hx, rfl⟩
  exact ⟨rfl, rfl, rfl, rfl⟩

/-- A one-bar frame used to instantiate the `VWAP_REV` overwrite claim. -/
def c10Row : SRow :=
  { date := ⟨0, 33300⟩, high := some 10, low := some 5, atr := none,
    orb_long_entry := none, orb_short_entry := none, orb_sl := none,
    orb_target := none }

/-- Witness for C10: the overwrite theorem applied to a concrete one-bar
frame in adaptive mode. -/
theorem vwap_rev_zeroes_breakout_levels_witness :
    ({ c10Row with orb_long_entry := some 0
                   orb_short_entry := some 0
                   orb_sl := some 0
                   orb_target := some 0 } : SRow).orb_long_entry = some 0 ∧
    ({ c10Row with orb_long_entry := some 0
                   orb_short_entry := some 0
                   orb_sl := some 0
                   orb_target := some 0 } : SRow).orb_short_entry = some 0 ∧
    ({ c10Row with orb_long_entry := some 0
                   orb_short_entry := some 0
                   orb_sl := some 0
                   orb_target := some 0 } : SRow).orb_sl = some 0 ∧
    ({ c10Row with orb_long_entry := some 0
                   orb_short_entry := some 0
                   orb_sl := some 0
                   orb_target := some 0 } : SRow).orb_target = some 0 :=
  vwap_rev_zeroes_breakout_levels [c10Row] 1 1 1 true _ (by
    norm_num [assignStrategyLevels, assignForDate, morningOf, morningSpan,
      maxHigh, minLow, inMorningWindow, c10Row, chooseStrategy, meanRange, Val.sub])

theorem assignForDate_date (rows : List SRow) (eb sf tf : ℚ) (adaptive : Bool)
    (active : String) (x : SRow) :
    (assignForDate rows eb sf tf adaptive active x).date = x.date := by
  simp only [assignForDate]
  split_ifs <;> rfl

/-- Claim C6: for every calendar date whose opening-range high-low span is
a number below 25, `assign_strategy_levels` assigns no breakout levels to
any bar of that date: with the columns at their null default on entry, every
row of that date leaves with each of the four breakout columns still null —
or zero, when the `VWAP_REV` overwrite of lines 78-79 applies — so no
breakout trade can be proposed that day. -/
theorem narrow_morning_range_skips_levels (rows : List SRow) (eb sf tf : ℚ)
    (adaptive : Bool) (active : String) (d : Int) (v : ℚ)
    (hspan : morningSpan rows d = some v) (hv : v < 25)
    (hinit : ∀ r ∈ rows, r.date.day = d →
       r.orb_long_entry = none ∧ r.orb_short_entry = none ∧
       r.orb_sl = none ∧ r.orb_target = none) :
    ∀ r ∈ assignStrategyLevels rows eb sf tf adaptive active, r.date.day = d →
      (r.orb_long_entry = none ∨ r.orb_long_entry = some 0) ∧
      (r.orb_short_entry = none ∨ r.orb_short_entry = some 0) ∧
      (r.orb_sl = none ∨ r.orb_sl = some 0) ∧
      (r.orb_target = none ∨ r.orb_target = some 0) := by
  have hskip : ∀ x : SRow, x.date.day = d →
      assignForDate rows eb sf tf adaptive active x = x := by
    intro x hxd
    simp only [assignForDate, hxd, hspan, hv, decide_eq_true_eq, if_true]
  intro r hr hd
  unfold assignStrategyLevels at hr
  by_cases hvr : (active == "VWAP_REV") = true
  · simp only [hvr, if_true, List.mem_map] at hr
    rcases hr with ⟨x, hx, rfl⟩
    exact ⟨Or.inr rfl, Or.inr rfl, Or.inr rfl, Or.inr rfl⟩
  · simp only [Bool.not_eq_true] at hvr
    simp only [hvr, Bool.false_eq_true, if_false] at hr
    by_cases hloop : (adaptive || active == "ORB") = true
    · rw [if_pos hloop, List.mem_map] at hr
      rcases hr with ⟨x, hx, rfl⟩
      have hxd : x.date.day = d := by
        rwa [assignForDate_date] at hd
      rw [hskip x hxd] at hd ⊢
      have h0 := hinit x hx hxd
      exact ⟨Or.inl h0.1, Or.inl h0.2.1, Or.inl h0.2.2.1, Or.inl h0.2.2.2⟩
    · rw [if_neg hloop] at hr
      have h0 := hinit r hr hd
      exact ⟨Or.inl h0.1, Or.inl h0.2.1, Or.inl h0.2.2.1, Or.inl h0.2.2.2⟩

/-- A one-bar frame whose opening-range span is 10, below the floor of 25. -/
def c6Row : SRow :=
  { date := ⟨0, 33300⟩, high := some 110, low := some 100, atr := some 30,
    orb_long_entry := none, orb_short_entry := none, orb_sl := none,
    orb_target := none }

/-- Witness for C6: the skip theorem applied to a concrete narrow-range day
under the `ORB` strategy. -/
theorem narrow_morning_range_skips_levels_witness :
    (c6Row.orb_long_entry = none ∨ c6Row.orb_long_entry = some 0) ∧
    (c6Row.orb_short_entry = none ∨ c6Row.orb_short_entry = some 0) ∧
    (c6Row.orb_sl = none ∨ c6Row.orb_sl = some 0) ∧
    (c6Row.orb_target = none ∨ c6Row.orb_target = some 0) :=
  narrow_morning_range_skips_levels [c6Row] 1 1 1 false "ORB" 0 10
    (by norm_num [morningSpan, morningOf, maxHigh, minLow, inMorningWindow, c6Row])
    (by norm_num)
    (by
      intro r hr _
      simp only [List.mem_singleton] at hr
      subst hr
      exact ⟨rfl, rfl, rfl, rfl⟩)
    c6Row
    (by
      norm_num [assignStrategyLevels, assignForDate, morningSpan, morningOf,
        maxHigh, minLow, inMorningWindow, chooseStrategy, meanRange, c6Row, Val.sub,
        show (("ORB" : String) = "VWAP_REV") = False from eq_false (by decide)])
    rfl

/-! ### Claim C9: the indicator engine
(`IndicatorCalculator.add_technical_indicators`, src/tradewin_strategy.py,
lines 22-36)

The frame is embedded as its columns; every derived column is computed
index-wise from the untouched `open`/`high`/`low`/`close` inputs.  pandas
semantics embedded: `shift(k)` prepends `k` NaN; `ewm(span, adjust=False)`
is the recursion `y0 = x0`, `yi = a xi + (1-a) y(i-1)` with
`a = 2/(span+1)`, a NaN input emitting the previous mean; `rolling(w).mean()`
is NaN until `w` observations exist and whenever the window contains NaN;
`pct_change` divides consecutive values (NaN at the start; the division is
total here because a zero previous close, which numpy would turn into an
infinity, is mapped to NaN — no claim depends on that corner). -/

/-- pandas `shift(k)` on a column. -/
def shiftCol (k : ℕ) (xs : List Val) : List Val :=
  (List.range xs.length).map fun i => if i < k then none else xs.getD (i - k) none

/-- The exponentially weighted mean at index `i` with smoothing `a`. -/
def ewmAt (a : ℚ) (xs : List Val) : ℕ → Option ℚ
  | 0 => xs.getD 0 none
  | i+1 =>
    match xs.getD (i+1) none, ewmAt a xs i with
    | none, p => p
    | some v, none => some v
    | some v, some p => some (a * v + (1 - a) * p)

/-- pandas `ewm(span=s, adjust=False).mean()` on a column. -/
def ewmCol (span : ℚ) (xs : List Val) : List Val :=
  (List.range xs.length).map (ewmAt (2 / (span + 1)) xs)

/-- pandas `rolling(window=w).mean()` on a column. -/
def rollingMeanCol (w : ℕ) (xs : List Val) : List Val :=
  (List.range xs.length).map fun i =>
    if i + 1 < w then none
    else
      let window := (xs.drop (i + 1 - w)).take w
      if window.any Val.isna then none
      else some ((window.filterMap id).sum / (w : ℚ))

/-- pandas `pct_change()` on a column. -/
def pctChangeCol (xs : List Val) : List Val :=
  (List.range xs.length).map fun i =>
    if i = 0 then none
    else
      match xs.getD i none, xs.getD (i - 1) none with
      | some c, some p => if p = 0 then none else some (c / p - 1)
      | _, _ => none

/-- The `RSI14` column: `100 - 100 / (1 + rolling14mean(pct_change + 1))`. -/
def rsiCol (close : List Val) : List Val :=
  (rollingMeanCol 14 ((pctChangeCol close).map fun v => Val.add v (some 1))).map
    fun v =>
      match v with
      | some m => if 1 + m = 0 then none else some (100 - 100 / (1 + m))
      | none => none

/-- The `ATR` column: 14-bar rolling mean of `high - low`. -/
def atrCol (high low : List Val) : List Val :=
  rollingMeanCol 14 ((List.range high.length).map fun i =>
    Val.sub (high.getD i none) (low.getD i none))

/-- The `MACD` column: 12-span EWM minus 26-span EWM of the close. -/
def macdCol (close : List Val) : List Val :=
  (List.range close.length).map fun i =>
    Val.sub ((ewmCol 12 close).getD i none) ((ewmCol 26 close).getD i none)

/-- The `VWAP_REV` column: `(high + low + close) / 3`. -/
def typicalPriceCol (high low close : List Val) : List Val :=
  (List.range close.length).map fun i =>
    match high.getD i none, low.getD i none, close.getD i none with
    | some h, some l, some c => some ((h + l + c) / 3)
    | _, _, _ => none

/-- A frame as its columns: the four raw OHLC inputs and the derived
columns `add_technical_indicators` writes. -/
structure IFrame where
  open_ : List Val
  high : List Val
  low : List Val
  close : List Val
  open_prev_1 : List Val
  close_prev_1 : List Val
  open_prev_2 : List Val
  close_prev_2 : List Val
  ema5 : List Val
  ema20 : List Val
  rsi14 : List Val
  atr : List Val
  macd : List Val
  vwap_rev : List Val
  prev_close : List Val
  deriving DecidableEq

/-- Embeds `IndicatorCalculator.add_technical_indicators`
(src/tradewin_strategy.py, lines 22-36): each derived column is assigned
from the raw inputs; the raw columns are never written. -/
def addTechnicalIndicators (f : IFrame) : IFrame :=
  { f with
      open_prev_1 := shiftCol 1 f.open_
      close_prev_1 := shiftCol 1 f.close
      open_prev_2 := shiftCol 2 f.open_
      close_prev_2 := shiftCol 2 f.close
      ema5 := ewmCol 5 f.close
      ema20 := ewmCol 20 f.close
      rsi14 := rsiCol f.close
      atr := atrCol f.high f.low
      macd := macdCol f.close
      vwap_rev := typicalPriceCol f.high f.low f.close
      prev_close := shiftCol 1 f.close }

/-- Claim C9: `add_technical_indicators` only adds derived columns — the raw
`open`/`high`/`low`/`close` columns and hence the ordering and count of rows
are untouched, every derived column has exactly one value per row of the
column it derives from — and it is idempotent: applied to its own output it
recomputes every derived column from the unchanged raw inputs and yields an
identical frame. -/
theorem addTechnicalIndicators_pure (f : IFrame) :
    addTechnicalIndicators (addTechnicalIndicators f) = addTechnicalIndicators f ∧
    (addTechnicalIndicators f).open_ = f.open_ ∧
    (addTechnicalIndicators f).high = f.high ∧
    (addTechnicalIndicators f).low = f.low ∧
    (addTechnicalIndicators f).close = f.close ∧
    (addTechnicalIndicators f).open_prev_1.length = f.open_.length ∧
    (addTechnicalIndicators f).close_prev_1.length = f.close.length ∧
    (addTechnicalIndicators f).open_prev_2.length = f.open_.length ∧
    (addTechnicalIndicators f).close_prev_2.length = f.close.length ∧
    (addTechnicalIndicators f).ema5.length = f.close.length ∧
    (addTechnicalIndicators f).ema20.length = f.close.length ∧
    (addTechnicalIndicators f).rsi14.length = f.close.length ∧
    (addTechnicalIndicators f).atr.length = f.high.length ∧
    (addTechnicalIndicators f).macd.length = f.close.length ∧
    (addTechnicalIndicators f).vwap_rev.length = f.close.length ∧
    (addTechnicalIndicators f).prev_close.length = f.close.length := by
  refine ⟨rfl, rfl, rfl, rfl, rfl, ?_, ?_, ?_, ?_, ?_, ?_, ?_, ?_, ?_, ?_, ?_⟩ <;>
    simp [addTechnicalIndicators, shiftCol, ewmCol, rollingMeanCol, rsiCol,
      atrCol, macdCol, typicalPriceCol, pctChangeCol]

end Tradewin
